import Mathlib

/-!
Verification of the `pdf-parser` repository (src/main.py).

The program is a sequential pipeline: open a PDF, walk its pages extracting
embedded text (falling back to OCR for image-only pages), collect the per-page
texts plus metadata, and print a formatted report from a small CLI.

The shallow embedding below models the Python code as Lean functions.
External libraries (pdfplumber, pytesseract) appear as environment
parameters: opening a document and running OCR are fallible operations
`String → Except PyExc PDF` and `Image → String → Except PyExc String`.
Python printing is modelled by a writer-style monad `PyM` collecting the
payload of each print call; a raised Python exception is a `PyExc` value
carrying the exception type name and its message (`str(e)` is the message).
-/

/-- A Python exception value: the name of its type and its message
(Python `str(e)` yields the message). -/
structure PyExc where
  ty : String
  msg : String
deriving Repr, DecidableEq

/-- An abstract rasterized page image (the `.original` bitmap); its content is
irrelevant to the control flow, only its identity is passed to OCR. -/
structure Image where
  id : Nat
deriving Repr, DecidableEq

/-- A pdfplumber page, as the extractor consumes it:
`extract_text()` (fallible, returns a string or None), the `images` list,
the `chars` list (used only in debug output), and rasterization
`to_image().original` (fallible). -/
structure Page where
  extract_text : Except PyExc (Option String)
  images : List Nat
  chars : List Nat
  to_image : Except PyExc Image
deriving Repr

/-- A pdfplumber document: its list of pages. -/
structure PDF where
  pages : List Page
deriving Repr

/-- The dictionary returned by `extract_pdf_info`:
`text` (per-page text list), `num_pages`, `has_images`. -/
structure ExtractResult where
  text : List String
  num_pages : Nat
  has_images : Bool
deriving Repr, DecidableEq

/-- A Python computation: the list of strings passed to `print` so far,
paired with either a value or a raised exception. -/
abbrev PyM (α : Type) : Type := List String × Except PyExc α

/-- Return a value, printing nothing. -/
def PyM.pure {α : Type} (a : α) : PyM α := ([], Except.ok a)

/-- Sequencing: output accumulates; an exception aborts the rest but keeps
the output already printed. -/
def PyM.bind {α β : Type} (m : PyM α) (f : α → PyM β) : PyM β :=
  match m with
  | (out, Except.ok a) => ((out ++ (f a).1, (f a).2) : PyM β)
  | (out, Except.error e) => (out, Except.error e)

/-- A `print(s)` call. -/
def PyM.print (s : String) : PyM Unit := ([s], Except.ok ())

/-- Run a fallible library call inside a Python computation. -/
def PyM.lift {α : Type} : Except PyExc α → PyM α
  | Except.ok a => ([], Except.ok a)
  | Except.error e => ([], Except.error e)

/-- Python truthiness of `page_text` (an `Option String`):
`not page_text` holds exactly when it is `None` or the empty string.
Note: no trimming — a whitespace-only string is truthy. -/
def pyFalsy : Option String → Bool
  | none => true
  | some s => s.isEmpty

/-- Python `page_text or ''`. -/
def pyOr (o : Option String) : String := o.getD ""

/-- Python `s.strip()`: drop whitespace from both ends. -/
def pyStrip (s : String) : String :=
  String.mk (((s.toList.dropWhile Char.isWhitespace).reverse.dropWhile
    Char.isWhitespace).reverse)

/-- Python `s[:n]`: the first `n` characters. -/
def pySlice (s : String) (n : Nat) : String := String.mk (s.toList.take n)

/-- A Python `for` loop whose body may end with `break`: the body returns the
new state and whether it executed `break`; iteration stops at the first
`break` or exception. -/
def pyFor {σ α : Type} (body : σ → α → PyM (σ × Bool)) : σ → List α → PyM σ
  | s, [] => PyM.pure s
  | s, x :: xs =>
    PyM.bind (body s x) (fun r => if r.2 then PyM.pure r.1 else pyFor body r.1 xs)

/-- Loop state of `extract_pdf_info`: the 1-based page counter from
`enumerate(pdf.pages, 1)`, the accumulated `text` list, and `has_images`. -/
structure LoopState where
  pageNum : Nat
  text : List String
  has_images : Bool
deriving Repr, DecidableEq

/-- The body of the per-page loop of `extract_pdf_info` (src/main.py lines
28-46): try native extraction; if the text is falsy and the page has images,
set `has_images`, rasterize, and OCR with the hardcoded language "jpn"; print
the four debug lines; append `page_text or ''`; then `break` unconditionally. -/
def loopBody (ocrF : Image → String → Except PyExc String)
    (st : LoopState) (page : Page) : PyM (LoopState × Bool) :=
  PyM.bind (PyM.lift page.extract_text) (fun pt0 =>
  PyM.bind
    (if pyFalsy pt0 && !page.images.isEmpty then
      PyM.bind (PyM.lift page.to_image) (fun image =>
      PyM.bind (PyM.lift (ocrF image "jpn")) (fun t =>
      PyM.pure ((some t : Option String), true)))
    else PyM.pure (pt0, st.has_images)) (fun pr =>
  PyM.bind (PyM.print ("\nDebug - Page " ++ toString st.pageNum
      ++ " text length: " ++ toString (pyOr pr.1).length)) (fun _ =>
  PyM.bind (PyM.print ("Debug - First 100 chars of page " ++ toString st.pageNum
      ++ " text: " ++ (if pyFalsy pr.1 then "No text" else pySlice (pyOr pr.1) 100)))
    (fun _ =>
  PyM.bind (PyM.print ("Page " ++ toString st.pageNum ++ " char count: "
      ++ toString page.chars.length)) (fun _ =>
  PyM.bind (PyM.print ("Page " ++ toString st.pageNum ++ " image count: "
      ++ toString page.images.length)) (fun _ =>
  PyM.pure (⟨st.pageNum + 1, st.text ++ [pyOr pr.1], pr.2⟩, true)))))))

/-- Wrap an exception the way the `except` clause of `extract_pdf_info` does:
`raise Exception(f"Error extracting PDF info: {str(e)}")`. -/
def wrapExc (e : PyExc) : PyExc :=
  ⟨"Exception", "Error extracting PDF info: " ++ e.msg⟩

/-- `extract_pdf_info` (src/main.py lines 8-55): open the document, run the
per-page loop, return the result dictionary; any exception is caught and
re-raised as a plain `Exception` with the wrapped message. -/
def extract_pdf_info (open_pdf : String → Except PyExc PDF)
    (ocrF : Image → String → Except PyExc String) (pdf_path : String) :
    PyM ExtractResult :=
  match
    PyM.bind (PyM.lift (open_pdf pdf_path)) (fun pdf =>
    PyM.bind (pyFor (loopBody ocrF) ⟨1, [], false⟩ pdf.pages) (fun st =>
    PyM.pure ⟨st.text, pdf.pages.length, st.has_images⟩))
  with
  | (out, Except.ok r) => (out, Except.ok r)
  | (out, Except.error e) => (out, Except.error (wrapExc e))

/-- `"-" * 80`, the separator printed after each chunk. -/
def dash80 : String := String.mk (List.replicate 80 '-')

/-- `"=" * 80`, the separator printed after each page. -/
def eq80 : String := String.mk (List.replicate 80 '=')

/-- The chunking of the list comprehension
`[page_text[i:i+1000] for i in range(0, len(page_text), 1000)]`,
generalized over the chunk size: `range(0, len, size)` enumerates the
`⌈len/size⌉` start offsets `i*size`, and slice `[i*size : i*size + size]`
is `take size` of `drop (i*size)`. -/
def chunkChars (size : Nat) (l : List Char) : List (List Char) :=
  (List.range ((l.length + size - 1) / size)).map
    (fun i => ((l.drop (i * size)).take size))

/-- The page text split into fixed-size character chunks. -/
def strChunks (s : String) (size : Nat) : List String :=
  (chunkChars size s.toList).map (fun l => String.mk l)

/-- The print calls `print_pdf_info` makes for one page (src/main.py lines
65-73): nothing if the stripped text is empty, otherwise the page header, then
each 1000-character chunk followed by the dash separator, then the equals
separator. -/
def pageLines (idx : Nat) (t : String) : List String :=
  if (pyStrip t).isEmpty then []
  else ("\nPage " ++ toString idx ++ ":")
    :: ((strChunks t 1000).flatMap (fun c => [c, dash80]) ++ [eq80])

/-- `print_pdf_info` (src/main.py lines 57-73) as the list of its print
calls: the page count, the OCR note when `has_images`, the text-content
banner, then the per-page sections. -/
def print_pdf_info (info : ExtractResult) : List String :=
  ("Number of pages: " ++ toString info.num_pages)
    :: ((if info.has_images
          then ["\nNote: This PDF contains images and OCR was used to extract text"]
          else [])
      ++ ["\nText content:"]
      ++ (List.enumFrom 1 info.text).flatMap (fun pr => pageLines pr.1 pr.2))

/-- The observable outcome of one CLI run: process exit status, the lines
written to standard output, and the lines written to standard error. -/
structure CLIResult where
  exitCode : Nat
  stdout : List String
  stderr : List String
deriving Repr, DecidableEq

namespace src

/-- `main` (src/main.py lines 75-98): resolve the path from the optional
positional argument or an interactive prompt, run the extractor and printer;
on any exception print `Error: <message>` to standard error and exit 1;
falling off the end exits 0. -/
def main (open_pdf : String → Except PyExc PDF)
    (ocrF : Image → String → Except PyExc String)
    (arg : Option String) (stdin : String) : CLIResult :=
  let promptOut : List String :=
    match arg with
    | some _ => []
    | none => ["Enter PDF file path: "]
  let path : String :=
    match arg with
    | some p => p
    | none => stdin
  match extract_pdf_info open_pdf ocrF path with
  | (out, Except.ok info) => ⟨0, promptOut ++ out ++ print_pdf_info info, []⟩
  | (out, Except.error e) => ⟨1, promptOut ++ out, ["Error: " ++ e.msg]⟩

end src

/-! ### Structural lemmas about the extractor loop -/

/-- Every successful iteration of the loop body ends in `break`:
the `break` statement at src/main.py line 46 is unconditional. -/
theorem loopBody_ok_break {f : Image → String → Except PyExc String}
    {st : LoopState} {p : Page} {out : List String} {r : LoopState × Bool}
    (h : loopBody f st p = (out, Except.ok r)) : r.2 = true := by
  unfold loopBody at h
  rcases hx : p.extract_text with e | pt0 <;> rw [hx] at h
  · simp [PyM.bind, PyM.lift] at h
  · by_cases hc : (pyFalsy pt0 && !p.images.isEmpty) = true
    · rcases hti : p.to_image with e1 | img
      · simp [PyM.bind, PyM.lift, PyM.pure, PyM.print, hc, hti] at h
      · rcases hocr : f img "jpn" with e2 | t
        · simp [PyM.bind, PyM.lift, PyM.pure, PyM.print, hc, hti, hocr] at h
        · simp [PyM.bind, PyM.lift, PyM.pure, PyM.print, hc, hti, hocr] at h
          rw [← h.2]
    · simp [PyM.bind, PyM.lift, PyM.pure, PyM.print, hc] at h
      rw [← h.2]

/-- When an iteration of the loop body raises, nothing was printed in it:
every fallible call precedes the debug prints. -/
theorem loopBody_error_out_nil {f : Image → String → Except PyExc String}
    {st : LoopState} {p : Page} {out : List String} {e : PyExc}
    (h : loopBody f st p = (out, Except.error e)) : out = [] := by
  unfold loopBody at h
  rcases hx : p.extract_text with e0 | pt0 <;> rw [hx] at h
  · simp [PyM.bind, PyM.lift] at h
    exact h.1
  · by_cases hc : (pyFalsy pt0 && !p.images.isEmpty) = true
    · rcases hti : p.to_image with e1 | img
      · simp [PyM.bind, PyM.lift, PyM.pure, PyM.print, hc, hti] at h
        exact h.1
      · rcases hocr : f img "jpn" with e2 | t
        · simp [PyM.bind, PyM.lift, PyM.pure, PyM.print, hc, hti, hocr] at h
          exact h.1
        · simp [PyM.bind, PyM.lift, PyM.pure, PyM.print, hc, hti, hocr] at h
    · simp [PyM.bind, PyM.lift, PyM.pure, PyM.print, hc] at h

/-- Opening failure: the wrapped error is returned with no output. -/
theorem extract_open_error {open_pdf : String → Except PyExc PDF}
    {f : Image → String → Except PyExc String} {path : String} {e : PyExc}
    (h : open_pdf path = Except.error e) :
    extract_pdf_info open_pdf f path = ([], Except.error (wrapExc e)) := by
  simp [extract_pdf_info, PyM.bind, PyM.lift, h]

/-- A document with at least one page: the whole extraction reduces to the
processing of the first page alone, because the loop body always breaks. -/
theorem extract_cons {open_pdf : String → Except PyExc PDF}
    {f : Image → String → Except PyExc String} {path : String} {pdf : PDF}
    {p : Page} {rest : List Page}
    (h : open_pdf path = Except.ok pdf) (hp : pdf.pages = p :: rest) :
    extract_pdf_info open_pdf f path =
      (match loopBody f ⟨1, [], false⟩ p with
       | (out, Except.ok r) =>
          (out, Except.ok ⟨r.1.text, rest.length + 1, r.1.has_images⟩)
       | (out, Except.error e) => (out, Except.error (wrapExc e))) := by
  rcases hl : loopBody f ⟨1, [], false⟩ p with ⟨out, res⟩
  rcases res with e | r
  · simp [extract_pdf_info, PyM.bind, PyM.lift, PyM.pure, pyFor, h, hp, hl]
  · have hb : r.2 = true := loopBody_ok_break hl
    simp [extract_pdf_info, PyM.bind, PyM.lift, PyM.pure, pyFor, h, hp, hl, hb]

/-! ### Lemmas about the fixed-size chunking -/

/-- The number of chunks of a nonempty list: one head window plus the
chunks of the remainder. -/
theorem chunk_count_succ {size n : Nat} (hs : 1 ≤ size) (hn : 1 ≤ n) :
    (n + size - 1) / size = (n - size + size - 1) / size + 1 := by
  have h1 : (n + size - 1) / size = (n - 1) / size + 1 := by
    rw [show n + size - 1 = (n - 1) + size by omega, Nat.add_div_right _ (by omega)]
  rcases Nat.le_total size n with hle | hlt
  · rw [h1, show n - size + size - 1 = n - 1 by omega]
  · rw [h1, show n - size = 0 by omega]
    rw [Nat.div_eq_of_lt (by omega), Nat.div_eq_of_lt (by omega)]

/-- The chunks concatenate back to the original character list: the
character windows partition the text. -/
theorem chunkChars_flatten {size : Nat} (hs : 1 ≤ size) (l : List Char) :
    (chunkChars size l).flatten = l := by
  obtain ⟨m, rfl⟩ : ∃ m, size = m + 1 := ⟨size - 1, by omega⟩
  generalize hn : l.length = n
  induction n using Nat.strong_induction_on generalizing l with
  | _ n ih =>
    cases l with
    | nil =>
      have h0 : (([] : List Char).length + (m + 1) - 1) / (m + 1) = 0 := by
        apply Nat.div_eq_of_lt
        simp only [List.length_nil]
        omega
      simp only [chunkChars, h0]
      rfl
    | cons c cs =>
      have hn1 : 1 ≤ n := by
        simp only [List.length_cons] at hn
        omega
      have hk := @chunk_count_succ (m + 1) n (by omega) hn1
      simp only [chunkChars]
      rw [hn, hk, List.range_succ_eq_map, List.map_cons, List.map_map]
      have hfun : ((fun i => (((c :: cs).drop (i * (m + 1))).take (m + 1))) ∘ Nat.succ)
          = (fun i => (((cs.drop m).drop (i * (m + 1))).take (m + 1))) := by
        funext i
        simp only [Function.comp_apply]
        rw [Nat.succ_mul, List.drop_drop]
        rw [show i * (m + 1) + (m + 1) = i * (m + 1) + m + 1 by omega]
        rw [List.drop_succ_cons, Nat.add_comm (i * (m + 1)) m]
      rw [hfun]
      have hrest : (cs.drop m).length = n - (m + 1) := by
        simp only [List.length_drop]
        simp only [List.length_cons] at hn
        omega
      have hih := ih (n - (m + 1)) (by omega) (cs.drop m) hrest
      simp only [chunkChars] at hih
      rw [hrest] at hih
      simp only [List.flatten_cons]
      rw [hih]
      rw [Nat.zero_mul, List.drop_zero, List.take_succ_cons, List.cons_append]
      congr 1
      exact List.take_append_drop m cs

/-- Every chunk is nonempty and no longer than the window size. -/
theorem chunkChars_mem_length {size : Nat} (hs : 1 ≤ size) {l c : List Char}
    (hc : c ∈ chunkChars size l) : c.length ≤ size ∧ c ≠ [] := by
  rcases List.mem_map.mp hc with ⟨i, hi, rfl⟩
  have hir : i < (l.length + size - 1) / size := List.mem_range.mp hi
  have hlen1 : 1 ≤ l.length := by
    by_contra hcon
    have h0 : l.length = 0 := by omega
    rw [h0, Nat.div_eq_of_lt (by omega)] at hir
    omega
  have hdiv : (l.length + size - 1) / size = (l.length - 1) / size + 1 := by
    rw [show l.length + size - 1 = (l.length - 1) + size by omega,
      Nat.add_div_right _ (by omega)]
  have hstart : i * size < l.length := by
    have hi1 : i ≤ (l.length - 1) / size := by omega
    have h2 : i * size ≤ ((l.length - 1) / size) * size :=
      Nat.mul_le_mul_right size hi1
    have h3 : ((l.length - 1) / size) * size ≤ l.length - 1 :=
      Nat.div_mul_le_self _ _
    omega
  constructor
  · simp only [List.length_take]
    omega
  · intro hnil
    have := congrArg List.length hnil
    simp only [List.length_take, List.length_drop, List.length_nil] at this
    omega

/-- A nonempty list yields at least one chunk. -/
theorem chunkChars_ne_nil {size : Nat} (hs : 1 ≤ size) {l : List Char}
    (h : l ≠ []) : chunkChars size l ≠ [] := by
  have hlen1 : 1 ≤ l.length := List.length_pos.mpr h
  have hk : 1 ≤ (l.length + size - 1) / size := by
    rw [Nat.le_div_iff_mul_le (by omega)]
    omega
  intro hnil
  have := congrArg List.length hnil
  simp only [chunkChars, List.length_map, List.length_range,
    List.length_nil] at this
  omega

/-- A list strictly longer than the (positive) window size yields at least
two chunks. -/
theorem chunkChars_two_le {size : Nat} (hs : 1 ≤ size) {l : List Char}
    (h : size < l.length) : 2 ≤ (chunkChars size l).length := by
  have hk : 2 ≤ (l.length + size - 1) / size := by
    rw [Nat.le_div_iff_mul_le (by omega)]
    omega
  simp only [chunkChars, List.length_map, List.length_range]
  exact hk

/-! ### Further extractor helpers -/

/-- An empty document: the loop never runs; the result is empty with the
flag unset. -/
theorem extract_nil {open_pdf : String → Except PyExc PDF}
    {f : Image → String → Except PyExc String} {path : String} {pdf : PDF}
    (h : open_pdf path = Except.ok pdf) (hp : pdf.pages = []) :
    extract_pdf_info open_pdf f path = ([], Except.ok ⟨[], 0, false⟩) := by
  simp [extract_pdf_info, PyM.bind, PyM.lift, PyM.pure, pyFor, h, hp]

/-- A successful loop-body iteration appends exactly one entry to the
accumulated text list. -/
theorem loopBody_ok_text {f : Image → String → Except PyExc String}
    {st : LoopState} {p : Page} {out : List String} {r : LoopState × Bool}
    (h : loopBody f st p = (out, Except.ok r)) :
    ∃ s, r.1.text = st.text ++ [s] := by
  unfold loopBody at h
  rcases hx : p.extract_text with e | pt0 <;> rw [hx] at h
  · simp [PyM.bind, PyM.lift] at h
  · by_cases hc : (pyFalsy pt0 && !p.images.isEmpty) = true
    · rcases hti : p.to_image with e1 | img
      · simp [PyM.bind, PyM.lift, PyM.pure, PyM.print, hc, hti] at h
      · rcases hocr : f img "jpn" with e2 | t
        · simp [PyM.bind, PyM.lift, PyM.pure, PyM.print, hc, hti, hocr] at h
        · simp [PyM.bind, PyM.lift, PyM.pure, PyM.print, hc, hti, hocr] at h
          exact ⟨pyOr (some t), by rw [← h.2]⟩
    · simp [PyM.bind, PyM.lift, PyM.pure, PyM.print, hc] at h
      exact ⟨pyOr pt0, by rw [← h.2]⟩

/-- Whenever the whole extraction fails, nothing was printed: every fallible
operation precedes the first debug print and the loop stops after one
iteration. -/
theorem extract_error_out_nil {open_pdf : String → Except PyExc PDF}
    {f : Image → String → Except PyExc String} {path : String}
    {out : List String} {e : PyExc}
    (h : extract_pdf_info open_pdf f path = (out, Except.error e)) :
    out = [] := by
  rcases ho : open_pdf path with e0 | pdf
  · rw [extract_open_error ho] at h
    exact (Prod.mk.injEq _ _ _ _ ▸ h).1.symm
  · cases hp : pdf.pages with
    | nil =>
      rw [extract_nil ho hp] at h
      simp at h
    | cons p rest =>
      rw [extract_cons ho hp] at h
      rcases hl : loopBody f ⟨1, [], false⟩ p with ⟨lout, res⟩
      rw [hl] at h
      rcases res with e1 | r
      · simp only at h
        have hout : lout = out := (Prod.mk.injEq _ _ _ _ ▸ h).1
        rw [← hout]
        exact loopBody_error_out_nil hl
      · simp at h

/-- A falsy `page_text` (None or "") turns into the empty string under
`page_text or ''`. -/
theorem pyOr_of_falsy {t : Option String} (h : pyFalsy t = true) :
    pyOr t = "" := by
  cases t with
  | none => rfl
  | some s =>
    simp only [pyFalsy, String.isEmpty_iff] at h
    simp [pyOr, h]

/-! ### Concrete fixtures -/

/-- An OCR engine that recognizes nothing: it always returns "". -/
def ocrBlank : Image → String → Except PyExc String := fun _ _ => Except.ok ""

/-- An OCR engine that always returns the text "ocr text". -/
def ocrFixed : Image → String → Except PyExc String := fun _ _ => Except.ok "ocr text"

/-- An OCR engine that always raises. -/
def ocrRaise : Image → String → Except PyExc String :=
  fun _ _ => Except.error ⟨"TesseractError", "ocr failed"⟩

/-- A page with embedded text `s`, no images, rasterizable. -/
def pageWithText (s : String) : Page :=
  ⟨Except.ok (some s), [], [], Except.ok ⟨0⟩⟩

/-- A page whose embedded text is the single space " " and which contains
one raster image. -/
def pageWsImg : Page := ⟨Except.ok (some " "), [7], [], Except.ok ⟨0⟩⟩

/-- A page with no embedded text and no images. -/
def pageBare : Page := ⟨Except.ok none, [], [], Except.ok ⟨0⟩⟩

/-- A page with no embedded text and one raster image. -/
def pageImgOnly : Page := ⟨Except.ok none, [7], [], Except.ok ⟨0⟩⟩

/-- A document with two pages, both holding embedded text. -/
def openTwoPages : String → Except PyExc PDF :=
  fun _ => Except.ok ⟨[pageWithText "alpha", pageWithText "beta"]⟩

/-- A document whose single page holds the whitespace text " " plus an
image. -/
def openWsImg : String → Except PyExc PDF := fun _ => Except.ok ⟨[pageWsImg]⟩

/-- A document whose single page has neither text nor images. -/
def openBare : String → Except PyExc PDF := fun _ => Except.ok ⟨[pageBare]⟩

/-- A document whose single page has only an image. -/
def openImgOnly : String → Except PyExc PDF := fun _ => Except.ok ⟨[pageImgOnly]⟩

/-- Opening fails: the file does not exist. -/
def openMissing : String → Except PyExc PDF :=
  fun _ => Except.error ⟨"FileNotFoundError", "No such file"⟩

/-! ### Claim theorems -/

/-- C1 (code-bug evidence): on a two-page document whose pages both hold
embedded text ("alpha" and "beta"), `extract_pdf_info` reports
`num_pages = 2` but returns a text list of length 1 holding only the first
page's text, because the loop breaks unconditionally after page one: the
documented per-page contract `pages.length == N` fails for N = 2. -/
theorem c1_break_drops_pages :
    (extract_pdf_info openTwoPages ocrBlank "doc.pdf").2
        = Except.ok ⟨["alpha"], 2, false⟩
    ∧ ¬((ExtractResult.mk ["alpha"] 2 false).text.length
          = (ExtractResult.mk ["alpha"] 2 false).num_pages) :=
  ⟨rfl, by decide⟩

/-- C2: the per-page loop terminates unconditionally after the first page:
for every document with at least one page, a successful extraction returns a
text list of length exactly 1, while `num_pages` still reports the full page
count; moreover the returned text list is determined by the first page
alone (any document sharing the first page yields the same text list). -/
theorem c2_first_page_only {open_pdf : String → Except PyExc PDF}
    {f : Image → String → Except PyExc String} {path : String} {pdf : PDF}
    {p : Page} {rest : List Page} {out : List String} {r : ExtractResult}
    (hopen : open_pdf path = Except.ok pdf) (hpages : pdf.pages = p :: rest)
    (hrun : extract_pdf_info open_pdf f path = (out, Except.ok r)) :
    r.text.length = 1 ∧ r.num_pages = rest.length + 1 ∧
      ∀ (open2 : String → Except PyExc PDF) (pdf2 : PDF) (rest2 : List Page)
        (out2 : List String) (r2 : ExtractResult),
        open2 path = Except.ok pdf2 → pdf2.pages = p :: rest2 →
        extract_pdf_info open2 f path = (out2, Except.ok r2) →
        r2.text = r.text := by
  rw [extract_cons hopen hpages] at hrun
  rcases hl : loopBody f ⟨1, [], false⟩ p with ⟨lout, res⟩
  rw [hl] at hrun
  rcases res with e | r0
  · injection hrun with h1 h2
    exact Except.noConfusion h2
  · injection hrun with h1 h2
    injection h2 with h3
    obtain ⟨s, hs⟩ := loopBody_ok_text hl
    refine ⟨?_, ?_, ?_⟩
    · rw [← h3]
      simp [hs]
    · rw [← h3]
    · intro open2 pdf2 rest2 out2 r2 ho2 hp2 hrun2
      rw [extract_cons ho2 hp2, hl] at hrun2
      injection hrun2 with h4 h5
      injection h5 with h6
      rw [← h6, ← h3]

/-- C2 witness: on the concrete two-page document the extraction succeeds
with one text entry and the full page count two. -/
theorem c2_witness :
    (ExtractResult.mk ["alpha"] 2 false).text.length = 1
    ∧ (ExtractResult.mk ["alpha"] 2 false).num_pages
        = [pageWithText "beta"].length + 1 := by
  have h := @c2_first_page_only openTwoPages ocrBlank "doc.pdf"
    ⟨[pageWithText "alpha", pageWithText "beta"]⟩ (pageWithText "alpha")
    [pageWithText "beta"]
    ["\nDebug - Page 1 text length: 5",
     "Debug - First 100 chars of page 1 text: alpha",
     "Page 1 char count: 0", "Page 1 image count: 0"]
    ⟨["alpha"], 2, false⟩ rfl rfl rfl
  exact ⟨h.1, h.2.1⟩

/-- Any failure exit of the extractor wraps some underlying cause. -/
theorem extract_error_exists_cause {open_pdf : String → Except PyExc PDF}
    {f : Image → String → Except PyExc String} {path : String}
    {out : List String} {e2 : PyExc}
    (h : extract_pdf_info open_pdf f path = (out, Except.error e2)) :
    ∃ e : PyExc, e2 = wrapExc e := by
  rcases ho : open_pdf path with e0 | pdf
  · rw [extract_open_error ho] at h
    injection h with h1 h2
    injection h2 with h3
    exact ⟨e0, h3.symm⟩
  · cases hp : pdf.pages with
    | nil =>
      rw [extract_nil ho hp] at h
      injection h with h1 h2
      exact Except.noConfusion h2
    | cons p rest =>
      rw [extract_cons ho hp] at h
      rcases hl : loopBody f ⟨1, [], false⟩ p with ⟨lout, res⟩
      rw [hl] at h
      rcases res with e1 | r0
      · injection h with h1 h2
        injection h2 with h3
        exact ⟨e1, h3.symm⟩
      · injection h with h1 h2
        exact Except.noConfusion h2

/-- C3: failure atomicity: whenever extraction fails, the single raised
error wraps an underlying cause (raised while opening the document or while
processing the first page), and nothing partial escapes the call: no output
was printed, and by the shape of the result either a complete result or a
single error is returned, never both. -/
theorem c3_atomic_failure {open_pdf : String → Except PyExc PDF}
    {f : Image → String → Except PyExc String} {path : String}
    {out : List String} {e2 : PyExc}
    (h : extract_pdf_info open_pdf f path = (out, Except.error e2)) :
    out = [] ∧ e2.ty = "Exception" ∧
      ∃ e : PyExc, e2 = wrapExc e ∧
        (open_pdf path = Except.error e ∨
         ∃ pdf p rest,
           open_pdf path = Except.ok pdf ∧ pdf.pages = p :: rest ∧
           loopBody f ⟨1, [], false⟩ p = ([], Except.error e)) := by
  refine ⟨extract_error_out_nil h, ?_⟩
  rcases ho : open_pdf path with e0 | pdf
  · rw [extract_open_error ho] at h
    injection h with h1 h2
    injection h2 with h3
    rw [← h3]
    exact ⟨rfl, e0, rfl, Or.inl rfl⟩
  · cases hp : pdf.pages with
    | nil =>
      rw [extract_nil ho hp] at h
      injection h with h1 h2
      exact Except.noConfusion h2
    | cons p rest =>
      rw [extract_cons ho hp] at h
      rcases hl : loopBody f ⟨1, [], false⟩ p with ⟨lout, res⟩
      rw [hl] at h
      rcases res with e1 | r0
      · have hnil : lout = [] := loopBody_error_out_nil hl
        injection h with h1 h2
        injection h2 with h3
        rw [← h3]
        exact ⟨rfl, e1, rfl, Or.inr ⟨pdf, p, rest, rfl, hp, hnil ▸ hl⟩⟩
      · injection h with h1 h2
        exact Except.noConfusion h2

/-- C3 witness: a page-level OCR failure is wrapped into the single raised
error and no output escapes. -/
theorem c3_witness :
    ([] : List String) = []
    ∧ (wrapExc ⟨"TesseractError", "ocr failed"⟩).ty = "Exception" := by
  have h := @c3_atomic_failure openImgOnly ocrRaise "scan.pdf" []
    (wrapExc ⟨"TesseractError", "ocr failed"⟩) rfl
  exact ⟨h.1, h.2.1⟩

/-- C10: on any internal failure the extractor raises a plain generic
`Exception` whose message is "Error extracting PDF info: " followed by the
string form of the cause; the raised type name is the constant "Exception"
whatever the cause's type was, so no distinct DocumentError type exists and
callers cannot distinguish error kinds by exception type. -/
theorem c10_plain_exception {open_pdf : String → Except PyExc PDF}
    {f : Image → String → Except PyExc String} {path : String}
    {out : List String} {e2 : PyExc}
    (h : extract_pdf_info open_pdf f path = (out, Except.error e2)) :
    e2.ty = "Exception" ∧
    (∃ e : PyExc, e2.msg = "Error extracting PDF info: " ++ e.msg) ∧
    (∀ c1 c2 : PyExc, (wrapExc c1).ty = (wrapExc c2).ty) := by
  obtain ⟨e, he⟩ := extract_error_exists_cause h
  subst he
  exact ⟨rfl, ⟨e, rfl⟩, fun c1 c2 => rfl⟩

/-- C10 witness: opening a missing file produces the generic wrapped
exception type. -/
theorem c10_witness : (wrapExc ⟨"FileNotFoundError", "No such file"⟩).ty
    = "Exception" := by
  have h := @c10_plain_exception openMissing ocrBlank "missing.pdf" []
    (wrapExc ⟨"FileNotFoundError", "No such file"⟩) rfl
  exact h.1

/-- When the OCR guard is false (truthy text or no images), the extraction
result keeps the native text of the first page and never consults the OCR
engine: the result is the same for every engine `f`. -/
theorem extract_no_ocr {open_pdf : String → Except PyExc PDF}
    {f : Image → String → Except PyExc String} {path : String} {pdf : PDF}
    {p : Page} {rest : List Page} {t : Option String}
    (hopen : open_pdf path = Except.ok pdf) (hpages : pdf.pages = p :: rest)
    (htext : p.extract_text = Except.ok t)
    (hc : (pyFalsy t && !p.images.isEmpty) = false) :
    (extract_pdf_info open_pdf f path).2
      = Except.ok ⟨[pyOr t], rest.length + 1, false⟩ := by
  rw [extract_cons hopen hpages]
  simp [loopBody, PyM.bind, PyM.lift, PyM.pure, PyM.print, htext, hc]

/-- When the OCR guard is true and both rasterization and OCR succeed, the
result records the OCR text as the page entry and has_images = true. -/
theorem extract_ocr {open_pdf : String → Except PyExc PDF}
    {f : Image → String → Except PyExc String} {path : String} {pdf : PDF}
    {p : Page} {rest : List Page} {t : Option String} {img : Image} {s : String}
    (hopen : open_pdf path = Except.ok pdf) (hpages : pdf.pages = p :: rest)
    (htext : p.extract_text = Except.ok t) (hfalsy : pyFalsy t = true)
    (himgs : p.images ≠ []) (hti : p.to_image = Except.ok img)
    (hocr : f img "jpn" = Except.ok s) :
    (extract_pdf_info open_pdf f path).2
      = Except.ok ⟨[s], rest.length + 1, true⟩ := by
  have himgFalse : p.images.isEmpty = false := by
    cases hpi : p.images with
    | nil => exact absurd hpi himgs
    | cons a as => rfl
  have hc : (pyFalsy t && !p.images.isEmpty) = true := by
    rw [hfalsy, himgFalse]
    rfl
  rw [extract_cons hopen hpages]
  simp [loopBody, PyM.bind, PyM.lift, PyM.pure, PyM.print, htext, hc, hti,
    hocr, pyOr]

/-- C4 counterexample to the claim as stated: the first page's embedded text
is the single space " " — null or zero-length AFTER TRIMMING — and the page
contains a raster image, so the claim requires the OCR fallback to fire and
usedOcr to become true; but the code tests Python truthiness without
trimming, so OCR is skipped: the result keeps usedOcr = false and the
native " " entry rather than the OCR engine's "ocr text". -/
theorem c4_counterexample :
    (extract_pdf_info openWsImg ocrFixed "scan.pdf").2
        = Except.ok ⟨[" "], 1, false⟩
    ∧ (pyStrip " ").isEmpty = true ∧ pageWsImg.images ≠ [] :=
  ⟨rfl, rfl, by decide⟩

/-- C4 amended: for the processed (first) page, the OCR fallback is invoked
if and only if the natively extracted text is Python-falsy — None or the
zero-length string, with NO trimming — and the page contains raster images.
When not invoked the result is independent of the OCR engine and keeps the
native text however short or garbage-like (no quality check); when invoked,
usedOcr becomes true for the whole document and the page is rasterized and
OCR'd with the fixed language "jpn". -/
theorem c4_ocr_guard_amended {open_pdf : String → Except PyExc PDF}
    {path : String} {pdf : PDF} {p : Page} {rest : List Page} {t : Option String}
    (hopen : open_pdf path = Except.ok pdf) (hpages : pdf.pages = p :: rest)
    (htext : p.extract_text = Except.ok t) :
    ((pyFalsy t && !p.images.isEmpty) = false →
      ∀ f : Image → String → Except PyExc String,
        (extract_pdf_info open_pdf f path).2
          = Except.ok ⟨[pyOr t], rest.length + 1, false⟩) ∧
    (∀ (f : Image → String → Except PyExc String) (img : Image) (s : String),
      pyFalsy t = true → p.images ≠ [] →
      p.to_image = Except.ok img → f img "jpn" = Except.ok s →
      (extract_pdf_info open_pdf f path).2
        = Except.ok ⟨[s], rest.length + 1, true⟩) := by
  constructor
  · intro hc f
    exact extract_no_ocr hopen hpages htext hc
  · intro f img s hfalsy himgs hti hocr
    exact extract_ocr hopen hpages htext hfalsy himgs hti hocr

/-- C4 witness: the guard is false on a page with the truthy text " " plus
an image (no OCR; entry " "; usedOcr false), and true on an image-only page
(OCR text recorded; usedOcr true). -/
theorem c4_witness :
    (extract_pdf_info openWsImg ocrRaise "scan.pdf").2
        = Except.ok ⟨[" "], 1, false⟩
    ∧ (extract_pdf_info openImgOnly ocrFixed "scan.pdf").2
        = Except.ok ⟨["ocr text"], 1, true⟩ := by
  have h1 := @c4_ocr_guard_amended openWsImg "scan.pdf" ⟨[pageWsImg]⟩
    pageWsImg [] (some " ") rfl rfl rfl
  have h2 := @c4_ocr_guard_amended openImgOnly "scan.pdf" ⟨[pageImgOnly]⟩
    pageImgOnly [] none rfl rfl rfl
  exact ⟨h1.1 (by decide) ocrRaise,
    h2.2 ocrFixed ⟨0⟩ "ocr text" rfl (by decide) rfl rfl⟩

/-- C5: a processed page with no embedded text (falsy extraction result) and
no images: OCR is not triggered (the result is independent of the OCR
engine), the page's entry is the empty string, and has_images stays false. -/
theorem c5_no_text_no_images {open_pdf : String → Except PyExc PDF}
    {path : String} {pdf : PDF} {p : Page} {rest : List Page} {t : Option String}
    (hopen : open_pdf path = Except.ok pdf) (hpages : pdf.pages = p :: rest)
    (htext : p.extract_text = Except.ok t) (hfalsy : pyFalsy t = true)
    (himg : p.images = []) :
    ∀ f : Image → String → Except PyExc String,
      (extract_pdf_info open_pdf f path).2
        = Except.ok ⟨[""], rest.length + 1, false⟩ := by
  intro f
  have hc : (pyFalsy t && !p.images.isEmpty) = false := by
    rw [himg]
    simp
  have h := extract_no_ocr (f := f) hopen hpages htext hc
  rw [pyOr_of_falsy hfalsy] at h
  exact h

/-- C5 witness: on the concrete one-page document with neither text nor
images, the entry is "" and has_images stays false. -/
theorem c5_witness :
    (extract_pdf_info openBare ocrFixed "empty.pdf").2
      = Except.ok ⟨[""], 1, false⟩ :=
  @c5_no_text_no_images openBare "empty.pdf" ⟨[pageBare]⟩ pageBare [] none
    rfl rfl rfl rfl rfl ocrFixed

/-- C9: has_images is set before the OCR output is examined: for a first
page with raster images and no native text where OCR returns the empty
string, the result still has has_images = true while the page's entry is
"", so usedOcr = true does not imply a non-empty OCR entry. -/
theorem c9_flag_set_before_ocr_output {open_pdf : String → Except PyExc PDF}
    {f : Image → String → Except PyExc String} {path : String} {pdf : PDF}
    {p : Page} {rest : List Page} {img : Image}
    (hopen : open_pdf path = Except.ok pdf) (hpages : pdf.pages = p :: rest)
    (htext : p.extract_text = Except.ok none) (himgs : p.images ≠ [])
    (hti : p.to_image = Except.ok img) (hocr : f img "jpn" = Except.ok "") :
    (extract_pdf_info open_pdf f path).2
      = Except.ok ⟨[""], rest.length + 1, true⟩ :=
  extract_ocr hopen hpages htext rfl himgs hti hocr

/-- C9 witness: an image-only page with an OCR engine that recognizes
nothing yields has_images = true and an empty page entry. -/
theorem c9_witness :
    (extract_pdf_info openImgOnly ocrBlank "scan.pdf").2
      = Except.ok ⟨[""], 1, true⟩ :=
  @c9_flag_set_before_ocr_output openImgOnly ocrBlank "scan.pdf"
    ⟨[pageImgOnly]⟩ pageImgOnly [] ⟨0⟩ rfl rfl rfl (by decide) rfl rfl

/-- C6: in the presenter, a page whose text is blank (empty or whitespace
only after stripping) produces no output at all, not even a header; and on
the concrete three-page result whose page 2 is whitespace-only, the report
holds headers for pages 1 and 3 only. -/
theorem c6_blank_pages_skipped (idx : Nat) (t : String)
    (h : (pyStrip t).isEmpty = true) :
    pageLines idx t = []
    ∧ print_pdf_info ⟨["hello", "  ", "world"], 3, false⟩
        = ["Number of pages: 3", "\nText content:",
           "\nPage 1:", "hello", dash80, eq80,
           "\nPage 3:", "world", dash80, eq80] := by
  constructor
  · simp [pageLines, h]
  · rfl

/-- C6 witness: the whitespace-only page 2 contributes no lines. -/
theorem c6_witness : pageLines 2 "  " = [] :=
  (c6_blank_pages_skipped 2 "  " rfl).1

/-- C7: for a non-blank page, the presenter emits the page header, then the
page's text split into fixed 1000-character chunks (character windows, not
sentence-aware: they are nonempty, at most 1000 characters, and concatenate
back to the page text), each chunk followed by the dash separator, and
exactly one equals separator at the end; text longer than 1000 characters
yields at least two chunks. -/
theorem c7_chunked_output (idx : Nat) (t : String)
    (h : (pyStrip t).isEmpty = false) :
    pageLines idx t
      = ("\nPage " ++ toString idx ++ ":")
          :: ((strChunks t 1000).flatMap (fun c => [c, dash80]) ++ [eq80])
    ∧ ((strChunks t 1000).map String.toList).flatten = t.toList
    ∧ (∀ c ∈ strChunks t 1000, c.length ≤ 1000 ∧ c ≠ "")
    ∧ (1000 < t.length → 2 ≤ (strChunks t 1000).length) := by
  refine ⟨?_, ?_, ?_, ?_⟩
  · simp [pageLines, h]
  · rw [strChunks, List.map_map,
      show (String.toList ∘ fun l => String.mk l) = id from funext (fun l => rfl),
      List.map_id]
    exact chunkChars_flatten (by omega) _
  · intro c hc
    rcases List.mem_map.mp hc with ⟨l, hl, rfl⟩
    obtain ⟨hlen, hne⟩ := chunkChars_mem_length (by omega) hl
    refine ⟨hlen, ?_⟩
    intro he
    exact hne (congrArg String.data he)
  · intro hlen
    rw [strChunks, List.length_map]
    exact chunkChars_two_le (by omega) hlen

/-- C7 witness: a short non-blank page produces its header, the single
chunk, one dash separator and one equals separator. -/
theorem c7_witness : pageLines 1 "abc" = ["\nPage 1:", "abc", dash80, eq80] :=
  ((c7_chunked_output 1 "abc" rfl).1).trans rfl

/-- C8: the CLI invoked with a path argument: if extraction fails, the
process exits with status 1, writes the single standard-error line
"Error: <message>", and produces no standard output at all (in particular
no report); if extraction succeeds, the exit status is 0. -/
theorem c8_cli_exit_codes {open_pdf : String → Except PyExc PDF}
    {f : Image → String → Except PyExc String} {p stdin : String} :
    (∀ (out : List String) (e : PyExc),
      extract_pdf_info open_pdf f p = (out, Except.error e) →
      src.main open_pdf f (some p) stdin = ⟨1, [], ["Error: " ++ e.msg]⟩) ∧
    (∀ (out : List String) (r : ExtractResult),
      extract_pdf_info open_pdf f p = (out, Except.ok r) →
      (src.main open_pdf f (some p) stdin).exitCode = 0) := by
  constructor
  · intro out e h
    have hnil : out = [] := extract_error_out_nil h
    subst hnil
    simp [src.main, h]
  · intro out r h
    simp [src.main, h]

/-- C8 witness: a missing file exits 1 with the single stderr message and
empty stdout; a successful run exits 0. -/
theorem c8_witness :
    src.main openMissing ocrBlank (some "missing.pdf") ""
      = ⟨1, [], ["Error: Error extracting PDF info: No such file"]⟩
    ∧ (src.main openTwoPages ocrBlank (some "doc.pdf") "").exitCode = 0 := by
  have h1 := (@c8_cli_exit_codes openMissing ocrBlank "missing.pdf" "").1 []
    (wrapExc ⟨"FileNotFoundError", "No such file"⟩) rfl
  have h2 := (@c8_cli_exit_codes openTwoPages ocrBlank "doc.pdf" "").2
    ["\nDebug - Page 1 text length: 5",
     "Debug - First 100 chars of page 1 text: alpha",
     "Page 1 char count: 0", "Page 1 image count: 0"]
    ⟨["alpha"], 2, false⟩ rfl
  exact ⟨h1, h2⟩
